import Mathlib

/-
Shallow embedding of the process-lifecycle core of the backend-toolkit
repository (package pkg/process): SafeRunSync / SafeRunAsync (fault
containment), AsyncStartWithSignalHandler (lifecycle coordinator) and
StartWithSignalHandler (runnable adapter).

The embedding follows the current revision of the package: process.go
(RunFunc returning error, Process.Valid), signal_handler.go with the
non-blocking override check after the select, runnable.go, and the
SafeRunSync / SafeRunAsync bodies. Concurrency is modelled by an explicit
schedule value describing which of the two race triggers fired first and
whether the run branch had delivered its value by the time the override
check executes; the completion channel is modelled explicitly as a
bounded buffer.
-/

namespace BackendToolkit

/-- Error codes of the errors package used by pkg/process. Only the code
referenced by signal_handler.go is needed. -/
inductive ErrorCode where
  | errInvalidProcess
deriving DecidableEq, Repr

/-- Go error values. An error is either one built by errors.New from a
message, one built by errors.NewCode from a code, or an arbitrary other
error value (kept abstract, identified by a tag) so that theorems can quantify
over errors produced by caller code. -/
inductive GoError where
  | errMsg (msg : String)
  | errCode (code : ErrorCode)
  | errExternal (tag : Nat)
deriving DecidableEq, Repr

/-- Modelled from the spec: pkg/errors is not part of the excerpt.
errors.New builds an error whose description is exactly the given text
(the tests in safe_run_sync_test.go compare such errors by value). -/
def errorsNew (msg : String) : GoError := .errMsg msg

/-- Modelled from the spec: pkg/errors is not part of the excerpt.
errors.NewCode builds an error carrying the given code. -/
def errorsNewCode (c : ErrorCode) : GoError := .errCode c

/-- Non-error Go values that can be carried by a panic, together with the
data needed to render them with the %v verb. -/
inductive GoValue where
  | vInt (n : Int)
  | vStr (s : String)
  | vBool (b : Bool)
deriving DecidableEq, Repr

/-- Rendering of a value by fmt.Sprintf with the %v verb, for the payload
kinds modelled here. -/
def fmtSprintfV : GoValue → String
  | .vInt n => toString n
  | .vStr s => s
  | .vBool b => if b then "true" else "false"

/-- Payload of a panic: either a value implementing the error interface
(the recovered.(error) assertion succeeds) or any other value. -/
inductive PanicPayload where
  | ofError (e : GoError)
  | ofValue (v : GoValue)
deriving DecidableEq, Repr

/-- Outcome of one terminated execution of a fallible zero-argument
action: it returned normally with an error or nil, or it panicked with a
payload. -/
inductive RunOutcome where
  | returns (err : Option GoError)
  | panics (p : PanicPayload)
deriving DecidableEq, Repr

/-- Observable result of a call as seen by its caller: a normal return
carrying an error value (possibly nil), or a fault (panic) escaping the
call. -/
inductive ExecResult where
  | returns (err : Option GoError)
  | fault (p : PanicPayload)
deriving DecidableEq, Repr

/-- Body of the deferred recover handler shared by SafeRunSync and
SafeRunAsync (safe_run_sync.go): if the recovered payload implements
error it is used as the error value directly, otherwise
errors.New(fmt.Sprintf("%v", recovered)) is built. -/
def recoverToError : PanicPayload → GoError
  | .ofError e => e
  | .ofValue v => errorsNew (fmtSprintfV v)

/-- SafeRunSync (pkg/process/safe_run_sync.go). The inner anonymous
function runs the action under a deferred recover, so a panic is
intercepted and converted by recoverToError; SafeRunSync then returns
the err variable normally in both cases, which is why no ExecResult.fault
constructor appears on the right-hand side.
Modelled from the spec: the excerpt of safe_run_sync.go predates RunFunc
returning an error (it discards the result of proc()); the current
revision, whose tests in safe_run_sync_test.go require the returned
error to be passed through, is not in the excerpt, so the normal-return
branch follows the spec: the output is the error the action returned
normally. -/
def SafeRunSync : RunOutcome → ExecResult
  | .returns e => .returns e
  | .panics p => .returns (some (recoverToError p))

/-- The err value computed inside SafeRunSync, by cases on the outcome
of the action: either the error the action returned, or the error the
recover handler reconstructed from the panic payload. This is the value
the run branch of the coordinator sends into the done channel. -/
def deliveredError : RunOutcome → Option GoError
  | .returns e => e
  | .panics p => some (recoverToError p)

/-- Result of SafeRunAsync (safe_run_sync.go): the capacity of the out
channel it creates and the single value the spawned branch delivers into
it. The branch registers the delivery defer first and the recover defer
second, so the recover runs first and the err it leaves behind is what
gets sent. -/
structure AsyncRun where
  chanCapacity : Nat
  delivered : Option GoError
deriving DecidableEq, Repr

/-- SafeRunAsync (pkg/process/safe_run_sync.go): out := make(chan error, 1);
the concurrent branch computes err (err = proc(), with the deferred
recover converting a panic via recoverToError) and the outer defer sends
err into out. -/
def SafeRunAsync (r : RunOutcome) : AsyncRun :=
  { chanCapacity := 1
    delivered :=
      match r with
      | .returns e => e
      | .panics p => some (recoverToError p) }

/-- A Go channel of error values with a bounded buffer. The done channel
of the coordinator and the out channel of SafeRunAsync are such channels
with capacity 1 and are never closed. -/
structure ErrChan where
  capacity : Nat
  buffer : List (Option GoError)
  closed : Bool
deriving DecidableEq, Repr

/-- The channel created by make(chan error, 1). -/
def ErrChan.mk1 : ErrChan := { capacity := 1, buffer := [], closed := false }

/-- Non-blocking send: some with the new state when the buffer has room,
none when the send would block. -/
def ErrChan.trySend (c : ErrChan) (v : Option GoError) : Option ErrChan :=
  if c.buffer.length < c.capacity then
    some { c with buffer := c.buffer ++ [v] }
  else
    none

/-- Result of a receive attempted inside a select with a default branch. -/
inductive RecvAttempt where
  | got (v : Option GoError) (ok : Bool) (rest : ErrChan)
  | wouldBlock
deriving DecidableEq, Repr

/-- Non-blocking receive: a buffered value arrives with ok = true; a
closed empty channel yields the zero value with ok = false; otherwise
the receive would block and the select takes its default branch. -/
def ErrChan.tryRecv (c : ErrChan) : RecvAttempt :=
  match c.buffer with
  | v :: rest => .got v true { c with buffer := rest }
  | [] => if c.closed then .got none false c else .wouldBlock

/-- State of the done channel right after the single send performed by
the run branch (done <- err). -/
def doneAfterSend (dv : Option GoError) : ErrChan :=
  { capacity := 1, buffer := [dv], closed := false }

/-- Abstract events emitted by the coordinator, used to state ordering
and resource properties. -/
inductive Event where
  | signalSubscribe
  | chanCreate (capacity : Nat)
  | goLaunchRun
  | runInvoke
  | chanSendDone
  | blockingSelect
  | interruptInvoke
  | nonBlockingSelect
  | signalUnsubscribe
deriving DecidableEq, Repr

/-- Whether an event suspends the flow of control that performs it. The
only blocking construct in the coordinator is the first select of the
wait function; channel creation, spawning a branch and the select with a
default branch do not block, and the send of the run branch is proved
non-blocking separately. -/
def Event.isBlocking : Event → Bool
  | .blockingSelect => true
  | _ => false

/-- Signal subscription state after processing a list of events, starting
from the given state: signal.NotifyContext subscribes, the stop function
unsubscribes. -/
def subscribedAfter (init : Bool) : List Event → Bool
  | [] => init
  | .signalSubscribe :: rest => subscribedAfter true rest
  | .signalUnsubscribe :: rest => subscribedAfter false rest
  | _ :: rest => subscribedAfter init rest

/-- The process type of pkg/process/process.go (current revision): a Run
field of type RunFunc (func() error) and an Interrupt field of type
InterruptFunc (func() error). A none field models a nil function value;
a some field carries the behaviour of the function: for Run the outcome
of its terminated execution, for Interrupt the error it returns. -/
structure Process where
  run : Option RunOutcome
  interrupt : Option (Option GoError)
deriving DecidableEq, Repr

/-- Process.Valid (process.go): both function fields are non-nil. -/
def Process.Valid (p : Process) : Bool :=
  p.run.isSome && p.interrupt.isSome

/-- Data captured by the wait closure returned on success: the behaviour
of the run and interrupt fields of the validated process. -/
structure WaitClosure where
  runOutcome : RunOutcome
  interruptErr : Option GoError
deriving DecidableEq, Repr

/-- Result of AsyncStartWithSignalHandler: the returned WaitFunc (none
models the nil function returned on the invalid-process path), the
returned error, and the trace of events performed by the call itself. -/
structure AsyncStart where
  wait : Option WaitClosure
  err : Option GoError
  events : List Event
deriving DecidableEq, Repr

/-- AsyncStartWithSignalHandler (signal_handler.go, current revision).
If the process is invalid the call returns nil and
errors.NewCode(ErrInvalidProcess) at once, performing nothing else.
Otherwise it subscribes to the interruption signals
(signal.NotifyContext), creates done := make(chan error, 1), launches
the run branch, and returns the wait closure with a nil error. The
match on both fields being present is exactly the Valid test. -/
def AsyncStartWithSignalHandler (p : Process) : AsyncStart :=
  match p.run, p.interrupt with
  | some r, some ie =>
      { wait := some { runOutcome := r, interruptErr := ie }
        err := none
        events := [.signalSubscribe, .chanCreate 1, .goLaunchRun] }
  | _, _ =>
      { wait := none
        err := some (errorsNewCode .errInvalidProcess)
        events := [] }

/-- Trace of the run branch spawned on success: it invokes the process
through SafeRunSync, then performs its single send into done. -/
def runBranchEvents : List Event := [.runInvoke, .chanSendDone]

/-- Which of the two race triggers the blocking select observes first:
the signal-aware context being done, or the run branch having delivered
into done. -/
inductive FirstTrigger where
  | signalFirst
  | runFirst
deriving DecidableEq, Repr

/-- One interleaving of a lifecycle, as far as the wait function can
observe it: which select case fires first and, when the signal case
fires first, whether the run branch has already delivered its value by
the time the trailing non-blocking check executes. -/
structure Schedule where
  first : FirstTrigger
  deliveredBeforeCheck : Bool
deriving DecidableEq, Repr

/-- The trailing non-blocking select of the wait function: a receive
from done with a default branch; when a value arrives with ok true and
it is non-nil it replaces the current error, otherwise the current error
stands. Returns the resulting error and the channel state it leaves
behind. -/
def overrideCheck (err : Option GoError) (c : ErrChan) :
    Option GoError × ErrChan :=
  match c.tryRecv with
  | .got runErr ok rest => (if ok && runErr.isSome then runErr else err, rest)
  | .wouldBlock => (err, c)

/-- Observable outcome of one execution of the wait function: the error
it returns, the events it performed in order, and the state of the done
channel when it returns. -/
structure WaitRun where
  result : Option GoError
  events : List Event
  chanAfter : ErrChan
deriving DecidableEq, Repr

/-- Execution of the wait function (signal_handler.go, current revision)
under a given schedule. dv is the value the run branch sends. On the
runFirst schedule the blocking select receives dv from done, emptying
its single-slot buffer; on the signalFirst schedule it observes the
context first and invokes process.Interrupt synchronously, and done
holds dv at the trailing check exactly when the run branch delivered
before the check ran. In both cases the trailing non-blocking select
(overrideCheck) then executes, and the deferred stop() releases the
signal subscription last, before the function returns. -/
def waitExec (w : WaitClosure) (sched : Schedule) : WaitRun :=
  let dv := deliveredError w.runOutcome
  match sched.first with
  | .runFirst =>
      let err := dv
      let afterRecv : ErrChan := { capacity := 1, buffer := [], closed := false }
      let checked := overrideCheck err afterRecv
      { result := checked.1
        events := [.blockingSelect, .nonBlockingSelect, .signalUnsubscribe]
        chanAfter := checked.2 }
  | .signalFirst =>
      let err := w.interruptErr
      let atCheck : ErrChan :=
        if sched.deliveredBeforeCheck then doneAfterSend dv else ErrChan.mk1
      let checked := overrideCheck err atCheck
      { result := checked.1
        events := [.blockingSelect, .interruptInvoke, .nonBlockingSelect,
                   .signalUnsubscribe]
        chanAfter := checked.2 }

/-- The runnable interface of pkg/process/runnable.go: an entity exposing
Start() error and Stop() error. startOutcome is the outcome of one
terminated execution of Start; stopErr is the error Stop returns. -/
structure Runnable where
  startOutcome : RunOutcome
  stopErr : Option GoError
deriving DecidableEq, Repr

/-- StartWithSignalHandler (runnable.go): builds the process with
Run := runnable.Start and Interrupt := runnable.Stop and delegates to
AsyncStartWithSignalHandler. -/
def StartWithSignalHandler (r : Runnable) : AsyncStart :=
  AsyncStartWithSignalHandler
    { run := some r.startOutcome, interrupt := some r.stopErr }

/-- Channel states the done channel can be in before the run branch has
performed its send: it starts as make(chan error, 1) and the wait
function only ever receives from it. -/
inductive ReachableNoSend : ErrChan → Prop where
  | init : ReachableNoSend ErrChan.mk1
  | recv (c : ErrChan) (v : Option GoError) (ok : Bool) (rest : ErrChan) :
      ReachableNoSend c → c.tryRecv = .got v ok rest → ReachableNoSend rest

/-- Helper: before the run branch has sent, the done channel is still in
its initial state, because receives cannot add values and the channel
starts empty. -/
lemma reachableNoSend_eq_mk1 (c : ErrChan) (h : ReachableNoSend c) :
    c = ErrChan.mk1 := by
  induction h with
  | init => rfl
  | recv c v ok rest _ hrecv ih =>
      subst ih
      simp [ErrChan.tryRecv, ErrChan.mk1] at hrecv

/-- Claim C1: when the context-derived signal fires before run completes,
wait invokes interrupt synchronously (it appears in the trace between
the blocking select and the non-blocking check) and takes its returned
error as the preliminary outcome; the non-blocking check then returns
the run error instead exactly when the run branch has already delivered
a non-nil error, and otherwise the interrupt-derived outcome stands. -/
theorem wait_signalFirst_override (w : WaitClosure) (sched : Schedule)
    (h : sched.first = .signalFirst) :
    (waitExec w sched).result =
      (if sched.deliveredBeforeCheck ∧ (deliveredError w.runOutcome).isSome
        then deliveredError w.runOutcome else w.interruptErr) ∧
    (waitExec w sched).events =
      [.blockingSelect, .interruptInvoke, .nonBlockingSelect,
       .signalUnsubscribe] := by
  obtain ⟨f, d⟩ := sched
  subst h
  cases d with
  | false =>
      simp [waitExec, overrideCheck, ErrChan.mk1, ErrChan.tryRecv]
  | true =>
      cases hdv : deliveredError w.runOutcome with
      | none =>
          simp [waitExec, overrideCheck, doneAfterSend, ErrChan.tryRecv, hdv]
      | some e =>
          simp [waitExec, overrideCheck, doneAfterSend, ErrChan.tryRecv, hdv]

/-- Claim C1 witness: concrete scenario D. The interrupt returns the
error with message "interrupt error", the run branch has delivered the
error with message "run error" before the check, and wait returns the
run error. -/
theorem wait_signalFirst_override_witness :
    (Schedule.mk .signalFirst true).first = .signalFirst ∧
    ((waitExec
        ⟨.returns (some (.errMsg "run error")),
         some (.errMsg "interrupt error")⟩
        ⟨.signalFirst, true⟩).result = some (.errMsg "run error") ∧
      (waitExec
        ⟨.returns (some (.errMsg "run error")),
         some (.errMsg "interrupt error")⟩
        ⟨.signalFirst, true⟩).events =
        [.blockingSelect, .interruptInvoke, .nonBlockingSelect,
         .signalUnsubscribe]) :=
  ⟨rfl,
    (wait_signalFirst_override
      ⟨.returns (some (.errMsg "run error")),
       some (.errMsg "interrupt error")⟩
      ⟨.signalFirst, true⟩ rfl)⟩

/-- Claim C2: when run completes on its own with error E (including nil),
SafeRunSync passes E through unchanged, wait returns exactly E, and
interrupt is never invoked on this path. -/
theorem wait_runFirst_passthrough (E : Option GoError) (w : WaitClosure)
    (sched : Schedule) (hw : w.runOutcome = .returns E)
    (hs : sched.first = .runFirst) :
    SafeRunSync (.returns E) = .returns E ∧
    (waitExec w sched).result = E ∧
    Event.interruptInvoke ∉ (waitExec w sched).events := by
  obtain ⟨f, d⟩ := sched
  subst hs
  refine ⟨rfl, ?_, ?_⟩ <;>
    simp [waitExec, overrideCheck, ErrChan.tryRecv, hw, deliveredError]

/-- Claim C2 witness: a run completing with an arbitrary caller error
value (external tag 7) is passed through wait unchanged and interrupt is
not invoked. -/
theorem wait_runFirst_passthrough_witness :
    (WaitClosure.mk (.returns (some (.errExternal 7))) none).runOutcome =
      .returns (some (.errExternal 7)) ∧
    (Schedule.mk .runFirst false).first = .runFirst ∧
    (SafeRunSync (.returns (some (.errExternal 7))) =
        .returns (some (.errExternal 7)) ∧
      (waitExec ⟨.returns (some (.errExternal 7)), none⟩
          ⟨.runFirst, false⟩).result = some (.errExternal 7) ∧
      Event.interruptInvoke ∉
        (waitExec ⟨.returns (some (.errExternal 7)), none⟩
          ⟨.runFirst, false⟩).events) :=
  ⟨rfl, rfl,
    wait_runFirst_passthrough (some (.errExternal 7))
      ⟨.returns (some (.errExternal 7)), none⟩ ⟨.runFirst, false⟩ rfl rfl⟩

/-- Claim C3: for every process missing Run or Interrupt or both, the
call returns the invalid-operation error synchronously together with a
nil wait operation, and performs no further action: no signal
subscription is established and no run branch is launched. -/
theorem asyncStart_invalid (p : Process) (h : p.Valid = false) :
    (AsyncStartWithSignalHandler p).wait = none ∧
    (AsyncStartWithSignalHandler p).err =
      some (errorsNewCode .errInvalidProcess) ∧
    Event.signalSubscribe ∉ (AsyncStartWithSignalHandler p).events ∧
    Event.goLaunchRun ∉ (AsyncStartWithSignalHandler p).events := by
  obtain ⟨pr, pi⟩ := p
  cases pr <;> cases pi <;>
    simp_all [Process.Valid, AsyncStartWithSignalHandler]

/-- Claim C3 witness: the process with a Run function but a nil
Interrupt function is rejected with the invalid-process error, a nil
wait operation and an empty action trace. -/
theorem asyncStart_invalid_witness :
    (Process.mk (some (.returns none)) none).Valid = false ∧
    ((AsyncStartWithSignalHandler ⟨some (.returns none), none⟩).wait =
        none ∧
      (AsyncStartWithSignalHandler ⟨some (.returns none), none⟩).err =
        some (errorsNewCode .errInvalidProcess) ∧
      Event.signalSubscribe ∉
        (AsyncStartWithSignalHandler ⟨some (.returns none), none⟩).events ∧
      Event.goLaunchRun ∉
        (AsyncStartWithSignalHandler ⟨some (.returns none), none⟩).events) :=
  ⟨by decide,
    asyncStart_invalid ⟨some (.returns none), none⟩ (by decide)⟩

/-- Claim C4: SafeRunSync never lets a fault escape (every input yields
a normal return), a fault carrying an error payload F is returned as
exactly F, and when the run branch completes first, wait returns exactly
F. -/
theorem safeRunSync_error_fault_contained (F : GoError) (w : WaitClosure)
    (sched : Schedule) (hw : w.runOutcome = .panics (.ofError F))
    (hs : sched.first = .runFirst) :
    (∀ r : RunOutcome, ∃ e, SafeRunSync r = .returns e) ∧
    SafeRunSync (.panics (.ofError F)) = .returns (some F) ∧
    (waitExec w sched).result = some F := by
  obtain ⟨f, d⟩ := sched
  subst hs
  refine ⟨?_, rfl, ?_⟩
  · intro r
    cases r with
    | returns e => exact ⟨e, rfl⟩
    | panics p => exact ⟨some (recoverToError p), rfl⟩
  · simp [waitExec, overrideCheck, ErrChan.tryRecv, hw, deliveredError,
      recoverToError]

/-- Claim C4 witness: a run panicking with the sample caller error
(external tag 3) is contained by SafeRunSync and surfaced unchanged by
wait on the run-completed path. -/
theorem safeRunSync_error_fault_contained_witness :
    (WaitClosure.mk (.panics (.ofError (.errExternal 3))) none).runOutcome =
      .panics (.ofError (.errExternal 3)) ∧
    (Schedule.mk .runFirst false).first = .runFirst ∧
    ((∀ r : RunOutcome, ∃ e, SafeRunSync r = .returns e) ∧
      SafeRunSync (.panics (.ofError (.errExternal 3))) =
        .returns (some (.errExternal 3)) ∧
      (waitExec ⟨.panics (.ofError (.errExternal 3)), none⟩
          ⟨.runFirst, false⟩).result = some (.errExternal 3)) :=
  ⟨rfl, rfl,
    safeRunSync_error_fault_contained (.errExternal 3)
      ⟨.panics (.ofError (.errExternal 3)), none⟩ ⟨.runFirst, false⟩
      rfl rfl⟩

/-- Claim C5: a fault carrying a non-error payload is converted by
SafeRunSync and by SafeRunAsync into an error whose description is the
%v rendering of the payload, and wait returns that error on the
run-completed path. -/
theorem safeRun_nonError_payload (v : GoValue) (w : WaitClosure)
    (sched : Schedule) (hw : w.runOutcome = .panics (.ofValue v))
    (hs : sched.first = .runFirst) :
    SafeRunSync (.panics (.ofValue v)) =
      .returns (some (errorsNew (fmtSprintfV v))) ∧
    (SafeRunAsync (.panics (.ofValue v))).delivered =
      some (errorsNew (fmtSprintfV v)) ∧
    (waitExec w sched).result = some (errorsNew (fmtSprintfV v)) := by
  obtain ⟨f, d⟩ := sched
  subst hs
  refine ⟨rfl, rfl, ?_⟩
  simp [waitExec, overrideCheck, ErrChan.tryRecv, hw, deliveredError,
    recoverToError]

/-- Claim C5 witness: concrete scenario C. A run panicking with the bare
value 2 yields an error whose message is the string "2". -/
theorem safeRun_nonError_payload_witness :
    (WaitClosure.mk (.panics (.ofValue (.vInt 2))) none).runOutcome =
      .panics (.ofValue (.vInt 2)) ∧
    (Schedule.mk .runFirst false).first = .runFirst ∧
    (SafeRunSync (.panics (.ofValue (.vInt 2))) =
        .returns (some (errorsNew "2")) ∧
      (SafeRunAsync (.panics (.ofValue (.vInt 2)))).delivered =
        some (errorsNew "2") ∧
      (waitExec ⟨.panics (.ofValue (.vInt 2)), none⟩
          ⟨.runFirst, false⟩).result = some (errorsNew "2")) :=
  ⟨rfl, rfl,
    safeRun_nonError_payload (.vInt 2)
      ⟨.panics (.ofValue (.vInt 2)), none⟩ ⟨.runFirst, false⟩ rfl rfl⟩

/-- Claim C6: on every exit path of wait, both on the interrupt path and
on the run-completed path, the last action performed is releasing the
interruption-signal subscription (the deferred stop), so no signal
listener established by this lifecycle remains registered after wait
returns. -/
theorem wait_releases_subscription (w : WaitClosure) (sched : Schedule) :
    (waitExec w sched).events.getLast? = some .signalUnsubscribe ∧
    subscribedAfter true (waitExec w sched).events = false := by
  obtain ⟨f, d⟩ := sched
  cases f <;> simp [waitExec, subscribedAfter]

/-- Claim C7: the completion delivery channel is created with capacity
exactly one and the run branch writes to it exactly once; a late
completion delivered after wait chose the interrupt path is observed by
the non-blocking check, and when the run-completed path was taken first
the check consumes nothing and leaves the run outcome standing. -/
theorem done_channel_single_slot (w : WaitClosure) (sched : Schedule) :
    Event.chanCreate 1 ∈
      (AsyncStartWithSignalHandler
        ⟨some w.runOutcome, some w.interruptErr⟩).events ∧
    ErrChan.mk1.capacity = 1 ∧
    runBranchEvents.count .chanSendDone = 1 ∧
    (sched.first = .signalFirst → sched.deliveredBeforeCheck = true →
      (doneAfterSend (deliveredError w.runOutcome)).tryRecv =
        .got (deliveredError w.runOutcome) true ErrChan.mk1 ∧
      (waitExec w sched).chanAfter = ErrChan.mk1) ∧
    (sched.first = .runFirst →
      (waitExec w sched).chanAfter = ErrChan.mk1 ∧
      (waitExec w sched).result = deliveredError w.runOutcome) := by
  obtain ⟨f, d⟩ := sched
  refine ⟨?_, rfl, rfl, ?_, ?_⟩
  · simp [AsyncStartWithSignalHandler]
  · rintro rfl rfl
    refine ⟨rfl, ?_⟩
    cases hdv : deliveredError w.runOutcome <;>
      simp [waitExec, overrideCheck, doneAfterSend, ErrChan.tryRecv,
        ErrChan.mk1, hdv]
  · rintro rfl
    cases hdv : deliveredError w.runOutcome <;>
      simp [waitExec, overrideCheck, ErrChan.tryRecv, ErrChan.mk1, hdv]

/-- Claim C7 witness: instantiated on the lifecycle whose run returns
the error with external tag 5 and whose interrupt returns nil, under the
schedule where the signal fired first and the run branch delivered
before the check. -/
theorem done_channel_single_slot_witness :
    (Schedule.mk .signalFirst true).first = .signalFirst ∧
    (Schedule.mk .signalFirst true).deliveredBeforeCheck = true ∧
    (Event.chanCreate 1 ∈
        (AsyncStartWithSignalHandler
          ⟨some (.returns (some (.errExternal 5))), some none⟩).events ∧
      ErrChan.mk1.capacity = 1 ∧
      runBranchEvents.count .chanSendDone = 1 ∧
      ((Schedule.mk .signalFirst true).first = .signalFirst →
        (Schedule.mk .signalFirst true).deliveredBeforeCheck = true →
        (doneAfterSend
            (deliveredError (.returns (some (.errExternal 5))))).tryRecv =
          .got (deliveredError (.returns (some (.errExternal 5)))) true
            ErrChan.mk1 ∧
        (waitExec ⟨.returns (some (.errExternal 5)), none⟩
            ⟨.signalFirst, true⟩).chanAfter = ErrChan.mk1) ∧
      ((Schedule.mk .signalFirst true).first = .runFirst →
        (waitExec ⟨.returns (some (.errExternal 5)), none⟩
            ⟨.signalFirst, true⟩).chanAfter = ErrChan.mk1 ∧
        (waitExec ⟨.returns (some (.errExternal 5)), none⟩
            ⟨.signalFirst, true⟩).result =
          deliveredError (.returns (some (.errExternal 5))))) :=
  ⟨rfl, rfl,
    done_channel_single_slot ⟨.returns (some (.errExternal 5)), none⟩
      ⟨.signalFirst, true⟩⟩

/-- Claim C8: on every successful call (valid process), the signal
subscription is established strictly before the run branch is launched,
and the call performs no blocking action. -/
theorem asyncStart_subscribe_before_launch (p : Process)
    (h : p.Valid = true) :
    (AsyncStartWithSignalHandler p).events =
      [.signalSubscribe, .chanCreate 1, .goLaunchRun] ∧
    (AsyncStartWithSignalHandler p).events.indexOf .signalSubscribe <
      (AsyncStartWithSignalHandler p).events.indexOf .goLaunchRun ∧
    ∀ e ∈ (AsyncStartWithSignalHandler p).events, e.isBlocking = false := by
  obtain ⟨pr, pi⟩ := p
  cases pr with
  | none => simp [Process.Valid] at h
  | some r =>
      cases pi with
      | none => simp [Process.Valid] at h
      | some ie =>
          refine ⟨rfl, ?_, ?_⟩
          · simp only [AsyncStartWithSignalHandler]
            decide
          intro e he
          simp [AsyncStartWithSignalHandler] at he
          rcases he with rfl | rfl | rfl <;> rfl

/-- Claim C8 witness: the valid process whose run returns nil and whose
interrupt returns nil subscribes before launching and blocks nowhere. -/
theorem asyncStart_subscribe_before_launch_witness :
    (Process.mk (some (.returns none)) (some none)).Valid = true ∧
    ((AsyncStartWithSignalHandler
        ⟨some (.returns none), some none⟩).events =
      [.signalSubscribe, .chanCreate 1, .goLaunchRun] ∧
    (AsyncStartWithSignalHandler
        ⟨some (.returns none), some none⟩).events.indexOf
        .signalSubscribe <
      (AsyncStartWithSignalHandler
        ⟨some (.returns none), some none⟩).events.indexOf .goLaunchRun ∧
    ∀ e ∈ (AsyncStartWithSignalHandler
        ⟨some (.returns none), some none⟩).events,
      e.isBlocking = false) :=
  ⟨by decide,
    asyncStart_subscribe_before_launch ⟨some (.returns none), some none⟩
      (by decide)⟩

/-- Claim C9: lifting a runnable with Start and Stop through
StartWithSignalHandler behaves identically to calling
AsyncStartWithSignalHandler on the process with run = Start and
interrupt = Stop: same returned error, same wait operation, and the same
wait behaviour under every schedule. -/
theorem startWithSignalHandler_refines (r : Runnable) :
    StartWithSignalHandler r =
      AsyncStartWithSignalHandler
        ⟨some r.startOutcome, some r.stopErr⟩ ∧
    (StartWithSignalHandler r).err =
      (AsyncStartWithSignalHandler
        ⟨some r.startOutcome, some r.stopErr⟩).err ∧
    ∀ sched : Schedule,
      Option.map (fun w => waitExec w sched)
          (StartWithSignalHandler r).wait =
        Option.map (fun w => waitExec w sched)
          (AsyncStartWithSignalHandler
            ⟨some r.startOutcome, some r.stopErr⟩).wait :=
  ⟨rfl, rfl, fun _ => rfl⟩

/-- Claim C10: the run branch of a terminated run body always
terminates: the done channel, in any state reachable before the single
send (the channel starts empty and wait only receives), still has its
one free slot, so the send never blocks even if wait is never called and
the value is never read; and the branch performs exactly one send. -/
theorem runBranch_send_never_blocks (c : ErrChan) (r : RunOutcome)
    (h : ReachableNoSend c) :
    (c.trySend (deliveredError r)).isSome = true ∧
    c.trySend (deliveredError r) =
      some (doneAfterSend (deliveredError r)) ∧
    runBranchEvents.count .chanSendDone = 1 ∧
    (SafeRunAsync r).chanCapacity = 1 := by
  have hc := reachableNoSend_eq_mk1 c h
  subst hc
  refine ⟨?_, ?_, rfl, rfl⟩ <;>
    simp [ErrChan.trySend, ErrChan.mk1, doneAfterSend]

/-- Claim C10 witness: the initial empty single-slot channel accepts the
delivery of a clean run outcome without blocking. -/
theorem runBranch_send_never_blocks_witness :
    ReachableNoSend ErrChan.mk1 ∧
    ((ErrChan.mk1.trySend (deliveredError (.returns none))).isSome = true ∧
      ErrChan.mk1.trySend (deliveredError (.returns none)) =
        some (doneAfterSend (deliveredError (.returns none))) ∧
      runBranchEvents.count .chanSendDone = 1 ∧
      (SafeRunAsync (.returns none)).chanCapacity = 1) :=
  ⟨ReachableNoSend.init,
    runBranch_send_never_blocks ErrChan.mk1 (.returns none)
      ReachableNoSend.init⟩

end BackendToolkit
